import Mathlib

set_option maxHeartbeats 1000000
set_option maxRecDepth 8192

/-
Shallow embedding of the local-cache data layer of the AirQualityMonitor
desktop client (AirQualityMonitor.cpp, MeasurementProcessor.cpp).

JSON values are modelled by `JVal`, mirroring QJsonValue; QJsonObject is a
key-sorted association list, matching Qt's sorted-unique-key storage.
Accessors replicate Qt defaulting semantics: `toInt` is 0 unless the value
is a whole number, `toString` is "" unless the value is a string,
`toDouble` is 0 unless the value is numeric, a missing key yields an
undefined value (modelled as `none`) which is not null.
-/

namespace AirQuality

inductive JVal where
  | jnull
  | jbool (b : Bool)
  | jnum (q : ℚ)
  | jstr (s : String)
  | jarr (elems : List JVal)
  | jobj (fields : List (String × JVal))

namespace JVal

/-- QJsonValue::toObject with default: objects yield their fields, anything
else the empty object. -/
def toObject : JVal → List (String × JVal)
  | jobj fs => fs
  | _ => []

/-- QJsonObject::value: the value stored at the key, or undefined (`none`)
when the key is absent. -/
def objValue : List (String × JVal) → String → Option JVal
  | [], _ => none
  | (k, v) :: rest, key => if k = key then some v else objValue rest key

/-- QJsonValue::toInt with default 0: the value if it is a whole number,
0 otherwise (including null, undefined and non-numeric values). -/
def optToInt : Option JVal → Int
  | some (jnum q) => if q.den = 1 then q.num else 0
  | _ => 0

/-- QJsonValue::toDouble with default 0.0. -/
def optToDouble : Option JVal → ℚ
  | some (jnum q) => q
  | _ => 0

/-- QJsonValue::toString with default empty string. -/
def optToString : Option JVal → String
  | some (jstr s) => s
  | _ => ""

/-- QJsonValue::isNull: true exactly for a JSON null; an undefined value
(missing key) is NOT null. -/
def optIsNull : Option JVal → Bool
  | some jnull => true
  | _ => false

/-- QJsonValue::toArray with default empty array. -/
def optToArray : Option JVal → List JVal
  | some (jarr xs) => xs
  | _ => []

/-- QJsonObject::contains. -/
def objContains (fs : List (String × JVal)) (key : String) : Bool :=
  (objValue fs key).isSome

/-- QJsonObject::insert: replace the value when the key exists, otherwise
insert keeping keys sorted (Qt stores object keys sorted and unique). -/
def objInsert : List (String × JVal) → String → JVal → List (String × JVal)
  | [], key, v => [(key, v)]
  | (k, w) :: rest, key, v =>
    match compare key k with
    | .lt => (key, v) :: (k, w) :: rest
    | .eq => (key, v) :: rest
    | .gt => (k, w) :: objInsert rest key v

end JVal

open JVal

/-- The `stationId` integer field of a stored sensor entry
(`obj.value("stationId").toInt()`). -/
def stationIdOf (v : JVal) : Int :=
  optToInt (objValue v.toObject "stationId")

/-- The `id` integer field of a stored measurement entry
(`obj.value("id").toInt()`). -/
def entryIdOf (v : JVal) : Int :=
  optToInt (objValue v.toObject "id")

/-- `sensor.insert("stationId", currentStationId)` performed on each fetched
sensor in `onSensorsDownloaded`. -/
def tagStation (stationId : Int) (v : JVal) : JVal :=
  jobj (objInsert v.toObject "stationId" (jnum stationId))

/--
`AirQualityMonitor::updateSensorsFile(newSensors)`: read the current
sensors collection, derive the station key from the FIRST element of
`newSensors` (or -1 when `newSensors` is empty), remove every stored entry
whose `stationId` equals that key when the key is not -1, append the new
sensors, and persist the result.
-/
def updateSensorsFile (allSensors newSensors : List JVal) : List JVal :=
  let stationId : Int :=
    match newSensors with
    | [] => -1
    | s :: _ => stationIdOf s
  let kept :=
    if stationId = -1 then allSensors
    else allSensors.filter (fun v => !(stationIdOf v == stationId))
  kept ++ newSensors

/-- The in-place field update performed on an existing measurement entry
(`obj["lastUpdated"] = timestamp; obj["values"] = newValues`). -/
def setMeasFields (e : JVal) (newValues : List JVal) (ts : String) : JVal :=
  jobj (objInsert (objInsert e.toObject "lastUpdated" (jstr ts)) "values" (jarr newValues))

/-- The fresh entry appended when no entry for the sensor exists
(`newEntry["id"]; newEntry["values"]; newEntry["lastUpdated"]`). -/
def mkMeasEntry (sensorId : Int) (newValues : List JVal) (ts : String) : JVal :=
  jobj (objInsert (objInsert (objInsert [] "id" (jnum sensorId)) "values" (jarr newValues))
    "lastUpdated" (jstr ts))

/-- The scan-update-break loop of `updateMeasurementsFile`: update the first
entry whose `id` matches and stop; `none` when no entry matches. -/
def updateMeasLoop (sensorId : Int) (newValues : List JVal) (ts : String) :
    List JVal → Option (List JVal)
  | [] => none
  | v :: rest =>
    if entryIdOf v = sensorId then some (setMeasFields v newValues ts :: rest)
    else
      match updateMeasLoop sensorId newValues ts rest with
      | some rest' => some (v :: rest')
      | none => none

/--
`AirQualityMonitor::updateMeasurementsFile(sensorId, newValues)` (the
documented definition with timestamps): read the collection, update the
first entry whose `id` equals `sensorId` in place (setting `lastUpdated`
to the current time and `values` to the new series), or append a fresh
`{id, values, lastUpdated}` entry when the sensor has none, then persist.
The current time is passed in as `ts`.
-/
def updateMeasurementsFile (allMeasurements : List JVal) (sensorId : Int)
    (newValues : List JVal) (ts : String) : List JVal :=
  match updateMeasLoop sensorId newValues ts allMeasurements with
  | some updated => updated
  | none => allMeasurements ++ [mkMeasEntry sensorId newValues ts]

/-- The lookup loop of `onMeasurementsLoadedFromFile`: the `values` array of
the first entry whose `id` matches, or the empty array. -/
def findSeries : List JVal → Int → List JVal
  | [], _ => []
  | v :: rest, sensorId =>
    if entryIdOf v = sensorId then optToArray (objValue v.toObject "values")
    else findSeries rest sensorId

/-
Local Store files.  A cache file is either absent (or unopenable), present
but not parseable as JSON, or parsed into a JSON document.  All three
`load*FromFile` helpers return the parsed top-level array and the empty
array in every other case.
-/

inductive FileData where
  | absent
  | corrupt
  | parsed (doc : JVal)

/-- QFile::exists for the modelled cache file. -/
def FileData.fileExists : FileData → Bool
  | .absent => false
  | _ => true

/-- `AirQualityMonitor::loadStationsFromFile`: empty array unless the file
opens and parses to a JSON array. -/
def loadStationsFromFile : FileData → List JVal
  | .parsed (.jarr xs) => xs
  | _ => []

/-- `AirQualityMonitor::loadSensorsFromFile`: empty array unless the file
opens and parses to a JSON array. -/
def loadSensorsFromFile : FileData → List JVal
  | .parsed (.jarr xs) => xs
  | _ => []

/-- `AirQualityMonitor::loadMeasurementsFromFile`: empty array unless the
file exists, opens and parses to a JSON array. -/
def loadMeasurementsFromFile : FileData → List JVal
  | .parsed (.jarr xs) => xs
  | _ => []

/-
Cache-coordinator flows.  Network completion is event-driven in the source;
the model passes the eventual reply as a parameter and records what the
handler chain does: what `updateSensorsList` / `updateMeasurementsList`
is called with, whether an HTTP GET for the entity data was issued,
whether the terminal no-data-and-offline dialog was shown, and what was
written back to the cache file.
-/

/-- Result of a sensors HTTP GET: network error, a body that is not a JSON
array (discarded by `onSensorsDownloaded`), or a parsed array body. -/
inductive SensorsReply where
  | err
  | nonArray
  | ok (body : List JVal)

structure SensorsOutcome where
  displayed : Option (List JVal)
  fetchIssued : Bool
  unavailableShown : Bool
  savedStore : Option (List JVal)

/-- `AirQualityMonitor::onSensorsLoadedFromFile(stationId)`: filter the
stored sensors to the station; display them when any exist, otherwise show
the terminal error when offline or issue a fetch when online. -/
def onSensorsLoadedFromFile (content : List JVal) (stationId : Int)
    (internet : Bool) : SensorsOutcome :=
  let stationSensors := content.filter (fun v => stationIdOf v == stationId)
  if stationSensors.isEmpty then
    if !internet then ⟨none, false, true, none⟩
    else ⟨none, true, false, none⟩
  else ⟨some stationSensors, false, false, none⟩

/-- `AirQualityMonitor::onSensorsDownloaded`: on network error fall back to
the file; on an array body tag each sensor with the station id, merge into
the sensors file and display; any other body is discarded. -/
def onSensorsDownloaded (content : List JVal) (stationId : Int)
    (internet : Bool) : SensorsReply → SensorsOutcome
  | .err => onSensorsLoadedFromFile content stationId internet
  | .nonArray => ⟨none, false, false, none⟩
  | .ok body =>
    let enhanced := body.map (tagStation stationId)
    ⟨some enhanced, false, false, some (updateSensorsFile content enhanced)⟩

def markSensorsFetch (o : SensorsOutcome) : SensorsOutcome :=
  ⟨o.displayed, true, o.unavailableShown, o.savedStore⟩

/--
`AirQualityMonitor::downloadSensorData` composed with the completion
handlers: no-op for the sentinel station -1; serve from the file when it
already holds any sensor of the station (no network call); otherwise issue
the GET whose completion runs `onSensorsDownloaded` on `reply`.
-/
def downloadSensorData (fd : FileData) (stationId : Int) (internet : Bool)
    (reply : SensorsReply) : SensorsOutcome :=
  if stationId = -1 then ⟨none, false, false, none⟩
  else
    let content := loadSensorsFromFile fd
    if fd.fileExists && content.any (fun v => stationIdOf v == stationId) then
      onSensorsLoadedFromFile content stationId internet
    else
      markSensorsFetch (onSensorsDownloaded content stationId internet reply)

/-- Result of a measurements HTTP GET: network error (or timeout abort), a
body that is not a JSON object, or the `values` array of an object body. -/
inductive MeasReply where
  | err
  | notObject
  | ok (values : List JVal)

structure MeasOutcome where
  displayed : Option (List JVal)
  fetchIssued : Bool
  unavailableShown : Bool
  savedStore : Option (List JVal)

/-- The validity test of `onMeasurementsDownloaded`: an entry counts as
valid data when it has a `value` field that is not null. -/
def hasValidValue (v : JVal) : Bool :=
  objContains v.toObject "value" && !(optIsNull (objValue v.toObject "value"))

/-- `AirQualityMonitor::onMeasurementsLoadedFromFile(sensorId)`: look up the
stored series; when empty, show the terminal dialog offline or re-issue a
fetch online; when present, display it (offering an optional refresh when
online, taken iff the user accepts). -/
def onMeasurementsLoadedFromFile (content : List JVal) (sensorId : Int)
    (internet : Bool) (userAcceptsRefetch : Bool) : MeasOutcome :=
  let sensorMeasurements := findSeries content sensorId
  if sensorMeasurements.isEmpty then
    if !internet then ⟨none, false, true, none⟩
    else ⟨none, true, false, none⟩
  else ⟨some sensorMeasurements, internet && userAcceptsRefetch, false, none⟩

/-- `AirQualityMonitor::onMeasurementsDownloaded` (documented definition):
on network error, a non-object body, or a body with no valid entry, fall
back to the file; otherwise persist via `updateMeasurementsFile` and
display the fetched series. -/
def onMeasurementsDownloaded (content : List JVal) (sensorId : Int)
    (internet : Bool) (userAcceptsRefetch : Bool) (ts : String) :
    MeasReply → MeasOutcome
  | .err => onMeasurementsLoadedFromFile content sensorId internet userAcceptsRefetch
  | .notObject => onMeasurementsLoadedFromFile content sensorId internet userAcceptsRefetch
  | .ok values =>
    if values.any hasValidValue then
      ⟨some values, false, false, some (updateMeasurementsFile content sensorId values ts)⟩
    else onMeasurementsLoadedFromFile content sensorId internet userAcceptsRefetch

def markMeasFetch (o : MeasOutcome) : MeasOutcome :=
  ⟨o.displayed, true, o.unavailableShown, o.savedStore⟩

/--
`AirQualityMonitor::downloadMeasurementData` (documented definition, the
user-triggered refresh) composed with the completion handlers: no-op for
the sentinel sensor -1; when the connectivity probe fails, fall back to
the file immediately; otherwise issue the GET (with timeout, modelled as
`MeasReply.err`) whose completion runs `onMeasurementsDownloaded`.
-/
def downloadMeasurementData (fd : FileData) (sensorId : Int) (internet : Bool)
    (reply : MeasReply) (ts : String) (userAcceptsRefetch : Bool) : MeasOutcome :=
  if sensorId = -1 then ⟨none, false, false, none⟩
  else
    let content := loadMeasurementsFromFile fd
    if !internet then
      onMeasurementsLoadedFromFile content sensorId internet userAcceptsRefetch
    else
      markMeasFetch (onMeasurementsDownloaded content sensorId internet userAcceptsRefetch ts reply)

/-
Display path of a measurement series (`updateMeasurementsList`, documented
definition).  Each list row either shows the formatted date with the
numeric value or the formatted date with the explicit no-data text for a
null value; the date string is kept verbatim (the source only reformats
it).  Entries without a `date` field produce no row; valid rows are listed
before null rows.
-/

inductive MeasItem where
  | valueItem (dateStr : String) (value : ℚ)
  | noData (dateStr : String)

def MeasItem.isNoData : MeasItem → Bool
  | .noData _ => true
  | _ => false

/-- The per-entry rendering step of `updateMeasurementsList`. -/
def renderMeasItem (v : JVal) : Option MeasItem :=
  let obj := v.toObject
  if objContains obj "date" then
    if optIsNull (objValue obj "value") then
      some (.noData (optToString (objValue obj "date")))
    else
      some (.valueItem (optToString (objValue obj "date")) (optToDouble (objValue obj "value")))
  else none

/-- `AirQualityMonitor::updateMeasurementsList` (documented definition):
render every dated entry, null-valued entries distinctly, and list valid
rows before null rows. -/
def updateMeasurementsList (values : List JVal) : List MeasItem :=
  let items := values.filterMap renderMeasItem
  items.filter (fun i => !i.isNoData) ++ items.filter (fun i => i.isNoData)

/-- `std::numeric_limits<double>::max()` exactly, i.e. (2 - 2^-52)·2^1023. -/
def dblMax : ℚ := ((2 ^ 1024 - 2 ^ 971 : ℕ) : ℚ)

/-- `std::min(a, b)`: b when b < a, otherwise a. -/
def stdMin (a b : ℚ) : ℚ := if b < a then b else a

/-- `MeasurementProcessor::calculateMin`: running minimum over
`obj.value("value").toDouble()`, which maps a null value to 0. -/
def calculateMin (data : List JVal) : ℚ :=
  data.foldl (fun m v => stdMin m (optToDouble (objValue v.toObject "value"))) dblMax

/-
Geospatial filter.  Station coordinates are stored as strings and read via
`obj.value("gegrLat").toString().toDouble()`: a missing or non-string
field yields "", and QString::toDouble yields 0.0 for any string that is
not a C-locale number.  Real arithmetic stands in for IEEE doubles.
-/

def digitsToNat (ds : List Char) : Nat :=
  ds.foldl (fun acc c => acc * 10 + (c.toNat - 48)) 0

/-- QString::toDouble, successful case: optional sign, decimal digits with
optional fractional part and optional exponent, surrounded by optional
whitespace; `none` when the string is not such a number. -/
def parseDecimal (s : String) : Option ℚ :=
  let trimmed :=
    ((s.data.dropWhile (fun c => c.isWhitespace)).reverse.dropWhile
      (fun c => c.isWhitespace)).reverse
  let (sign, cs1) : ℚ × List Char :=
    match trimmed with
    | '+' :: r => (1, r)
    | '-' :: r => (-1, r)
    | r => (1, r)
  let (intDs, cs2) := cs1.span (fun c => c.isDigit)
  let (fracDs, cs3) : List Char × List Char :=
    match cs2 with
    | '.' :: r => r.span (fun c => c.isDigit)
    | _ => ([], cs2)
  if intDs.isEmpty && fracDs.isEmpty then none
  else
    let mant : ℚ :=
      (digitsToNat intDs : ℚ) + (digitsToNat fracDs : ℚ) / (10 : ℚ) ^ fracDs.length
    match cs3 with
    | [] => some (sign * mant)
    | e :: r =>
      if e = 'e' ∨ e = 'E' then
        let (esign, r1) : Int × List Char :=
          match r with
          | '+' :: r2 => (1, r2)
          | '-' :: r2 => (-1, r2)
          | r2 => (1, r2)
        let (expDs, r3) : List Char × List Char := r1.span (fun c => c.isDigit)
        if expDs.isEmpty || !r3.isEmpty then none
        else some (sign * mant * (10 : ℚ) ^ (esign * (digitsToNat expDs : Int)))
      else none

/-- QString::toDouble with its 0.0 failure default. -/
def qstringToDouble (s : String) : ℚ :=
  (parseDecimal s).getD 0

/-- qDegreesToRadians. -/
noncomputable def qDegreesToRadians (deg : ℝ) : ℝ :=
  deg * (Real.pi / 180)

/-- `constexpr double kEarthRadiusKm = 6371.0`. -/
noncomputable def kEarthRadiusKm : ℝ := 6371

/-- C `atan2`, by its mathematical case analysis. -/
noncomputable def atan2 (y x : ℝ) : ℝ :=
  if 0 < x then Real.arctan (y / x)
  else if x < 0 then
    (if 0 ≤ y then Real.arctan (y / x) + Real.pi else Real.arctan (y / x) - Real.pi)
  else if 0 < y then Real.pi / 2
  else if y < 0 then -(Real.pi / 2)
  else 0

/-- `AirQualityMonitor::haversineDistance(lat1, lon1, lat2, lon2)`. -/
noncomputable def haversineDistance (lat1 lon1 lat2 lon2 : ℝ) : ℝ :=
  let dLat := qDegreesToRadians (lat2 - lat1)
  let dLon := qDegreesToRadians (lon2 - lon1)
  let a := Real.sin (dLat / 2) * Real.sin (dLat / 2) +
    Real.cos (qDegreesToRadians lat1) * Real.cos (qDegreesToRadians lat2) *
    Real.sin (dLon / 2) * Real.sin (dLon / 2)
  let c := 2 * atan2 (Real.sqrt a) (Real.sqrt (1 - a))
  kEarthRadiusKm * c

/-- `obj.value("gegrLat").toString().toDouble()` on a cached station. -/
noncomputable def stationLat (v : JVal) : ℝ :=
  (qstringToDouble (optToString (objValue v.toObject "gegrLat")) : ℚ)

/-- `obj.value("gegrLon").toString().toDouble()` on a cached station. -/
noncomputable def stationLon (v : JVal) : ℝ :=
  (qstringToDouble (optToString (objValue v.toObject "gegrLon")) : ℚ)

open Classical in
/-- `AirQualityMonitor::findStationsInRadius(centerLat, centerLon, radiusKm)`
over a given cached station list: keep the stations whose haversine
distance to the center is at most the radius. -/
noncomputable def findStationsInRadius (cachedStations : List JVal)
    (centerLat centerLon radiusKm : ℝ) : List JVal :=
  cachedStations.filter (fun v =>
    decide (haversineDistance centerLat centerLon (stationLat v) (stationLon v) ≤ radiusKm))

/-
Helper lemmas about station-id filters.
-/

theorem filter_bool_idem (p : JVal → Bool) (l : List JVal) :
    (l.filter p).filter p = l.filter p := by
  induction l with
  | nil => rfl
  | cons a t ih => by_cases h : p a <;> simp [List.filter_cons, h, ih]

theorem filter_tag_self {A : Int} {s : List JVal} (h : ∀ v ∈ s, stationIdOf v = A) :
    s.filter (fun v => stationIdOf v == A) = s := by
  induction s with
  | nil => rfl
  | cons a t ih =>
    have ha := h a (List.mem_cons_self a t)
    simp [List.filter_cons, ha, ih (fun v hv => h v (List.mem_cons_of_mem a hv))]

theorem filter_not_tag_self {A : Int} {s : List JVal} (h : ∀ v ∈ s, stationIdOf v = A) :
    s.filter (fun v => !(stationIdOf v == A)) = [] := by
  induction s with
  | nil => rfl
  | cons a t ih =>
    have ha := h a (List.mem_cons_self a t)
    simp [List.filter_cons, ha, ih (fun v hv => h v (List.mem_cons_of_mem a hv))]

theorem filter_tag_eq_nil {A B : Int} (hBA : B ≠ A) {s : List JVal}
    (h : ∀ v ∈ s, stationIdOf v = A) :
    s.filter (fun v => stationIdOf v == B) = [] := by
  induction s with
  | nil => rfl
  | cons a t ih =>
    have ha := h a (List.mem_cons_self a t)
    have : ¬(stationIdOf a = B) := by rw [ha]; exact fun hc => hBA hc.symm
    simp [List.filter_cons, this, ih (fun v hv => h v (List.mem_cons_of_mem a hv))]

theorem filter_tag_of_ne {A B : Int} (hne : B ≠ A) (l : List JVal) :
    (l.filter (fun v => !(stationIdOf v == A))).filter (fun v => stationIdOf v == B)
      = l.filter (fun v => stationIdOf v == B) := by
  induction l with
  | nil => rfl
  | cons a t ih =>
    have hne' : ¬(A = B) := fun h => hne h.symm
    by_cases hB : stationIdOf a = B
    · have hA : ¬(stationIdOf a = A) := by rw [hB]; exact hne
      simp [List.filter_cons, hA, hB, ih, hne, hne']
    · by_cases hA : stationIdOf a = A <;>
        simp [List.filter_cons, hA, hB, ih, hne, hne']

theorem filter_tag_of_filter_not {A : Int} (l : List JVal) :
    (l.filter (fun v => !(stationIdOf v == A))).filter (fun v => stationIdOf v == A)
      = [] := by
  induction l with
  | nil => rfl
  | cons a t ih => by_cases hA : stationIdOf a = A <;> simp [List.filter_cons, hA, ih]

/-- Upserting a nonempty sensor set all tagged with station `A ≠ -1`
rewrites the store to the other stations' entries followed by the new set. -/
theorem updateSensorsFile_tagged (store : List JVal) {s : List JVal} {A : Int}
    (hA : A ≠ -1) (a : JVal) (t : List JVal) (hs : s = a :: t)
    (h : ∀ v ∈ s, stationIdOf v = A) :
    updateSensorsFile store s
      = store.filter (fun v => !(stationIdOf v == A)) ++ s := by
  subst hs
  have ha : stationIdOf a = A := h a (List.mem_cons_self a t)
  simp [updateSensorsFile, ha, hA]

/-
Concrete sensor entries used by counterexamples and witnesses.
-/

def sensorA7 : JVal := jobj [("id", jnum 7), ("stationId", jnum 5)]
def sensorA9 : JVal := jobj [("id", jnum 9), ("stationId", jnum 5)]
def sensorB3 : JVal := jobj [("id", jnum 3), ("stationId", jnum 2)]

/--
Claim C10: calling the sensors upsert with an empty sensor set leaves the
stored collection exactly as it was (the deletion key is derived from the
first element of the new set, so nothing is removed and nothing is added),
and consequently an upsert can never clear a station's previously stored
sensors: any station with at least one stored sensor still has at least
one after any upsert.
-/
theorem c10_empty_upsert_is_noop :
    (∀ store : List JVal, updateSensorsFile store [] = store) ∧
    (∀ (store ns : List JVal) (A : Int),
      store.filter (fun v => stationIdOf v == A) ≠ [] →
      (updateSensorsFile store ns).filter (fun v => stationIdOf v == A) ≠ []) := by
  constructor
  · intro store
    simp [updateSensorsFile]
  · intro store ns A h
    match ns with
    | [] => simpa [updateSensorsFile] using h
    | s :: t =>
      by_cases hkey : stationIdOf s = -1
      · rw [show updateSensorsFile store (s :: t) = store ++ (s :: t) by
          simp [updateSensorsFile, hkey]]
        rw [List.filter_append]
        intro hc
        rw [List.append_eq_nil] at hc
        exact h hc.1
      · rw [show updateSensorsFile store (s :: t)
            = store.filter (fun v => !(stationIdOf v == stationIdOf s)) ++ (s :: t) by
          simp [updateSensorsFile, hkey]]
        rw [List.filter_append]
        by_cases hAk : A = stationIdOf s
        · intro hc
          rw [List.append_eq_nil] at hc
          have : stationIdOf s = A := hAk.symm
          simp [List.filter_cons, this] at hc
        · intro hc
          rw [List.append_eq_nil, filter_tag_of_ne hAk] at hc
          exact h hc.1

/-- Witness for C10 at concrete inputs. -/
theorem c10_empty_upsert_is_noop_witness :
    updateSensorsFile [sensorB3] [] = [sensorB3] ∧
    ([sensorB3].filter (fun v => stationIdOf v == 2) ≠ [] ∧
      (updateSensorsFile [sensorB3] [sensorA7]).filter
        (fun v => stationIdOf v == 2) ≠ []) :=
  have hne : [sensorB3].filter (fun v => stationIdOf v == 2) ≠ [] :=
    fun h => absurd (congrArg List.length h) (by decide)
  ⟨c10_empty_upsert_is_noop.1 [sensorB3], hne,
    c10_empty_upsert_is_noop.2 [sensorB3] [sensorA7] 2 hne⟩

/--
Claim C1 counterexample: with sensors for station 2 stored, upserting the
set `[sensorA7]` for station 5 and then the different (empty) set leaves
`[sensorA7]` — not the second set — stored under station 5, because the
empty upsert derives no deletion key and removes nothing.  The claim as
stated ("for every two sensor sets ... leaves exactly the second set
stored under station A") is therefore false at this input.
-/
theorem c1_counterexample :
    ¬ ((updateSensorsFile (updateSensorsFile [sensorB3] [sensorA7]) []).filter
        (fun v => stationIdOf v == 5) = []) := by
  intro h
  have hlen := congrArg List.length h
  exact absurd hlen (by decide)

/--
Claim C1 (amended): for every store and two NONEMPTY sensor sets whose
elements all carry `stationId = A` with `A ≠ -1`, upserting the first set
for station A and then the second leaves exactly the second set stored
under station A, and leaves the entries of every other station B exactly
as they were in the original store.
-/
theorem c1_upsert_replaces_station (store s1 s2 : List JVal) (A : Int)
    (hA : A ≠ -1) (h1ne : s1 ≠ []) (h2ne : s2 ≠ [])
    (h1 : ∀ v ∈ s1, stationIdOf v = A) (h2 : ∀ v ∈ s2, stationIdOf v = A) :
    (updateSensorsFile (updateSensorsFile store s1) s2).filter
        (fun v => stationIdOf v == A) = s2 ∧
    ∀ B : Int, B ≠ A →
      (updateSensorsFile (updateSensorsFile store s1) s2).filter
          (fun v => stationIdOf v == B)
        = store.filter (fun v => stationIdOf v == B) := by
  obtain ⟨a, t, rfl⟩ : ∃ a t, s1 = a :: t := by
    cases s1 with
    | nil => exact absurd rfl h1ne
    | cons a t => exact ⟨a, t, rfl⟩
  obtain ⟨b, u, rfl⟩ : ∃ b u, s2 = b :: u := by
    cases s2 with
    | nil => exact absurd rfl h2ne
    | cons b u => exact ⟨b, u, rfl⟩
  rw [updateSensorsFile_tagged store hA a t rfl h1,
    updateSensorsFile_tagged _ hA b u rfl h2]
  rw [List.filter_append, List.filter_append, filter_bool_idem,
    filter_not_tag_self h1, List.append_nil]
  constructor
  · rw [filter_tag_of_filter_not, List.nil_append, filter_tag_self h2]
  · intro B hB
    rw [List.filter_append, filter_tag_of_ne hB, filter_tag_eq_nil hB h2,
      List.append_nil]

/-- Witness for the amended C1 at concrete inputs. -/
theorem c1_upsert_replaces_station_witness :
    (5 : Int) ≠ -1 ∧ ([sensorA7] : List JVal) ≠ [] ∧ ([sensorA9] : List JVal) ≠ [] ∧
    (updateSensorsFile (updateSensorsFile [sensorB3] [sensorA7]) [sensorA9]).filter
        (fun v => stationIdOf v == 5) = [sensorA9] ∧
    (updateSensorsFile (updateSensorsFile [sensorB3] [sensorA7]) [sensorA9]).filter
        (fun v => stationIdOf v == 2)
      = [sensorB3].filter (fun v => stationIdOf v == 2) :=
  have h1ne : ([sensorA7] : List JVal) ≠ [] := List.cons_ne_nil _ _
  have h2ne : ([sensorA9] : List JVal) ≠ [] := List.cons_ne_nil _ _
  have hmain := c1_upsert_replaces_station [sensorB3] [sensorA7] [sensorA9] 5
    (by decide) h1ne h2ne (by decide) (by decide)
  ⟨by decide, h1ne, h2ne, hmain.1, hmain.2 2 (by decide)⟩

/-
Helper lemmas about the measurements update loop.
-/

theorem updateMeasLoop_none {sensorId : Int} {vs : List JVal} {ts : String}
    {l : List JVal} (h : ∀ v ∈ l, entryIdOf v ≠ sensorId) :
    updateMeasLoop sensorId vs ts l = none := by
  induction l with
  | nil => rfl
  | cons a t ih =>
    have ha := h a (List.mem_cons_self a t)
    simp [updateMeasLoop, ha, ih (fun v hv => h v (List.mem_cons_of_mem a hv))]

theorem updateMeasLoop_found (sensorId : Int) (vs : List JVal) (ts : String)
    (pre : List JVal) (e : JVal) (post : List JVal)
    (hpre : ∀ v ∈ pre, entryIdOf v ≠ sensorId) (he : entryIdOf e = sensorId) :
    updateMeasLoop sensorId vs ts (pre ++ e :: post)
      = some (pre ++ setMeasFields e vs ts :: post) := by
  induction pre with
  | nil => simp [updateMeasLoop, he]
  | cons a t ih =>
    have ha := hpre a (List.mem_cons_self a t)
    simp [updateMeasLoop, ha, ih (fun v hv => hpre v (List.mem_cons_of_mem a hv))]

/-
Concrete measurement entries used by counterexamples and witnesses.
-/

def measE1 : JVal := jobj [("id", jnum 1), ("values", jarr [])]
def measE2 : JVal := jobj [("id", jnum 2), ("values", jarr [])]
def exSeries : List JVal :=
  [jobj [("date", jstr "2024-01-01 00:00:00"), ("value", jnum 5)]]

/--
Claim C2 counterexample: with entries for sensors 1 and 2 stored, upserting
a series for sensor 1 does NOT remove the old entry and append a new one at
the end; the code updates the entry for sensor 1 in place, so the stored
collection starts with sensor 1's entry while the claimed
remove-then-append result starts with sensor 2's entry.
-/
theorem c2_counterexample :
    updateMeasurementsFile [measE1, measE2] 1 exSeries "2024-05-01T12:00:00"
      ≠ ([measE1, measE2].filter (fun v => !(entryIdOf v == 1))
          ++ [mkMeasEntry 1 exSeries "2024-05-01T12:00:00"]) := by
  intro h
  have h2 := congrArg (fun l => entryIdOf (l.headD JVal.jnull)) h
  exact absurd h2 (by decide)

/--
Claim C2 (amended): the documented measurements upsert stamps the series
with the current time but replaces in place rather than remove-then-append:
when no stored entry has the sensor id, it appends the single new entry
`{id, values, lastUpdated}`; when one does, it updates the FIRST such entry
in place (setting `lastUpdated` to the timestamp and `values` to the
series, keeping the entry's position and other fields), leaving every
other entry unchanged; the whole collection is then persisted.
-/
theorem c2_upsert_measurements_amended (store : List JVal) (sensorId : Int)
    (vs : List JVal) (ts : String) :
    ((∀ v ∈ store, entryIdOf v ≠ sensorId) →
      updateMeasurementsFile store sensorId vs ts
        = store ++ [mkMeasEntry sensorId vs ts]) ∧
    (∀ pre e post, store = pre ++ e :: post →
      (∀ v ∈ pre, entryIdOf v ≠ sensorId) → entryIdOf e = sensorId →
      updateMeasurementsFile store sensorId vs ts
        = pre ++ setMeasFields e vs ts :: post) := by
  constructor
  · intro h
    simp [updateMeasurementsFile, updateMeasLoop_none h]
  · intro pre e post hst hpre he
    subst hst
    simp [updateMeasurementsFile, updateMeasLoop_found sensorId vs ts pre e post hpre he]

/-- Witness for the amended C2 at concrete inputs: an append when sensor 1
is absent, and an in-place update of the first entry when it is present. -/
theorem c2_upsert_measurements_amended_witness :
    ((∀ v ∈ [measE2], entryIdOf v ≠ 1) ∧
      updateMeasurementsFile [measE2] 1 exSeries "2024-05-01T12:00:00"
        = [measE2] ++ [mkMeasEntry 1 exSeries "2024-05-01T12:00:00"]) ∧
    (updateMeasurementsFile [measE1, measE2] 1 exSeries "2024-05-01T12:00:00"
      = [] ++ setMeasFields measE1 exSeries "2024-05-01T12:00:00" :: [measE2]) :=
  ⟨⟨by decide,
    (c2_upsert_measurements_amended [measE2] 1 exSeries "2024-05-01T12:00:00").1 (by decide)⟩,
    (c2_upsert_measurements_amended [measE1, measE2] 1 exSeries "2024-05-01T12:00:00").2
      [] measE1 [measE2] rfl (by decide) (by decide)⟩

/--
Claim C3: when the Local Store already holds at least one sensor of the
station (and the station id is a real id, not the -1 sentinel),
`downloadSensorData` displays exactly the stored sensors filtered to the
station and performs no network call at all — the outcome is the same for
every connectivity state and every would-be reply.
-/
theorem c3_cache_hit_no_network (fd : FileData) (stationId : Int)
    (internet : Bool) (reply : SensorsReply) (hA : stationId ≠ -1)
    (hcache : (loadSensorsFromFile fd).filter
        (fun v => stationIdOf v == stationId) ≠ []) :
    downloadSensorData fd stationId internet reply
      = ⟨some ((loadSensorsFromFile fd).filter
            (fun v => stationIdOf v == stationId)),
          false, false, none⟩ := by
  have hex : fd.fileExists = true := by
    cases fd with
    | absent => exact absurd rfl hcache
    | corrupt => rfl
    | parsed doc => rfl
  have hany : (loadSensorsFromFile fd).any
      (fun v => stationIdOf v == stationId) = true := by
    rcases List.exists_mem_of_ne_nil _ hcache with ⟨x, hx⟩
    have hm := List.mem_filter.mp hx
    exact List.any_eq_true.mpr ⟨x, hm.1, hm.2⟩
  unfold downloadSensorData
  rw [if_neg hA]
  simp only [hex, hany, Bool.and_self, if_true]
  unfold onSensorsLoadedFromFile
  rcases hs : (loadSensorsFromFile fd).filter (fun v => stationIdOf v == stationId) with
    _ | ⟨y, ys⟩
  · exact absurd hs hcache
  · simp [hs]

/-- Witness for C3: station 5 cached, offline, reply would be an error —
the cached sensor set is displayed and no fetch is issued. -/
theorem c3_cache_hit_no_network_witness :
    (5 : Int) ≠ -1 ∧
    (loadSensorsFromFile (.parsed (.jarr [sensorA7, sensorB3]))).filter
        (fun v => stationIdOf v == 5) ≠ [] ∧
    downloadSensorData (.parsed (.jarr [sensorA7, sensorB3])) 5 false .err
      = ⟨some ((loadSensorsFromFile (.parsed (.jarr [sensorA7, sensorB3]))).filter
            (fun v => stationIdOf v == 5)),
          false, false, none⟩ :=
  have hcache : (loadSensorsFromFile (.parsed (.jarr [sensorA7, sensorB3]))).filter
      (fun v => stationIdOf v == 5) ≠ [] :=
    fun h => absurd (congrArg List.length h) (by decide)
  ⟨by decide, hcache,
    c3_cache_hit_no_network (.parsed (.jarr [sensorA7, sensorB3])) 5 false .err
      (by decide) hcache⟩

/--
Claim C4: when the Local Store holds no sensor of the station and the
network is unreachable (the issued GET fails), `downloadSensorData` ends in
the explicit terminal no-data dialog: nothing is displayed (in particular
no successful-but-empty sensor list) and the unavailable signal is shown.
-/
theorem c4_unavailable_when_offline_and_empty (fd : FileData) (stationId : Int)
    (hA : stationId ≠ -1)
    (hmiss : (loadSensorsFromFile fd).filter
        (fun v => stationIdOf v == stationId) = []) :
    downloadSensorData fd stationId false .err = ⟨none, true, true, none⟩ := by
  have hany : (loadSensorsFromFile fd).any
      (fun v => stationIdOf v == stationId) = false := by
    rcases h : (loadSensorsFromFile fd).any (fun v => stationIdOf v == stationId) with _ | _
    · rfl
    · rcases List.any_eq_true.mp h with ⟨x, hx, hpx⟩
      have : x ∈ (loadSensorsFromFile fd).filter (fun v => stationIdOf v == stationId) :=
        List.mem_filter.mpr ⟨hx, hpx⟩
      rw [hmiss] at this
      cases this
  unfold downloadSensorData
  rw [if_neg hA]
  simp only [hany, Bool.and_false, if_false]
  simp [onSensorsDownloaded, onSensorsLoadedFromFile, hmiss, markSensorsFetch]

/-- Witness for C4: only station 2 cached, station 99 requested offline —
the outcome is the terminal unavailable dialog, not an empty success. -/
theorem c4_unavailable_when_offline_and_empty_witness :
    (99 : Int) ≠ -1 ∧
    (loadSensorsFromFile (.parsed (.jarr [sensorB3]))).filter
        (fun v => stationIdOf v == 99) = [] ∧
    downloadSensorData (.parsed (.jarr [sensorB3])) 99 false .err
      = ⟨none, true, true, none⟩ :=
  ⟨by decide, rfl,
    c4_unavailable_when_offline_and_empty (.parsed (.jarr [sensorB3])) 99
      (by decide) rfl⟩

/--
Claim C6: every Local Store load operation (stations, sensors,
measurements) returns the empty collection on any file content that is not
a well-formed JSON array — a missing or unopenable file, a corrupt or
truncated file (parse error), or a document whose top level is not an
array — so a caller can observe nothing but "no data" from a bad cache
file.
-/
theorem c6_bad_file_loads_empty (fd : FileData)
    (hbad : ∀ xs : List JVal, fd ≠ .parsed (.jarr xs)) :
    loadStationsFromFile fd = [] ∧ loadSensorsFromFile fd = [] ∧
      loadMeasurementsFromFile fd = [] := by
  cases fd with
  | absent => exact ⟨rfl, rfl, rfl⟩
  | corrupt => exact ⟨rfl, rfl, rfl⟩
  | parsed doc =>
    cases doc with
    | jarr xs => exact absurd rfl (hbad xs)
    | jnull => exact ⟨rfl, rfl, rfl⟩
    | jbool b => exact ⟨rfl, rfl, rfl⟩
    | jnum q => exact ⟨rfl, rfl, rfl⟩
    | jstr s => exact ⟨rfl, rfl, rfl⟩
    | jobj fs => exact ⟨rfl, rfl, rfl⟩

/-- Witness for C6 at a corrupt (unparseable) cache file. -/
theorem c6_bad_file_loads_empty_witness :
    (∀ xs : List JVal, FileData.corrupt ≠ .parsed (.jarr xs)) ∧
    loadStationsFromFile .corrupt = [] ∧ loadSensorsFromFile .corrupt = [] ∧
      loadMeasurementsFromFile .corrupt = [] := by
  have hbad : ∀ xs : List JVal, FileData.corrupt ≠ .parsed (.jarr xs) := by
    intro xs h
    cases h
  exact ⟨hbad, c6_bad_file_loads_empty .corrupt hbad⟩

/-
C5: a (timestamp, null) measurement pair through the store and the display.
-/

def c5data : List JVal :=
  [jobj [("date", jstr "2024-01-01 00:00:00"), ("value", jnum 5)],
    jobj [("date", jstr "2024-01-01 01:00:00"), ("value", jnull)]]

/--
Claim C5, evaluated at the failing input: the null-valued pair does survive
the save-then-load round trip unchanged, and the measurement list renders
it distinctly ("no data" row) without dropping it — but the statistics
helper `MeasurementProcessor::calculateMin` coerces the null to 0 via
`toDouble()`: on a series whose only present value is 5, it returns 0, so
the claim "a null value is never coerced to 0" is violated by the code.
-/
theorem c5_null_roundtrip_but_coerced_in_min :
    findSeries (updateMeasurementsFile [] 1 c5data "2024-05-01T12:00:00") 1 = c5data ∧
    updateMeasurementsList c5data
      = [.valueItem "2024-01-01 00:00:00" 5, .noData "2024-01-01 01:00:00"] ∧
    calculateMin c5data = 0 ∧
    (c5data.filter (fun v => !(optIsNull (objValue v.toObject "value")))).map
        (fun v => optToDouble (objValue v.toObject "value")) = [5] := by
  refine ⟨rfl, rfl, ?_, by decide⟩
  decide

/-
Helper lemmas about `onMeasurementsLoadedFromFile`.
-/

theorem loadedFromFile_displayed (content : List JVal) (sensorId : Int)
    (internet u : Bool) (h : findSeries content sensorId ≠ []) :
    onMeasurementsLoadedFromFile content sensorId internet u
      = ⟨some (findSeries content sensorId), internet && u, false, none⟩ := by
  unfold onMeasurementsLoadedFromFile
  rcases hs : findSeries content sensorId with _ | ⟨y, ys⟩
  · exact absurd hs h
  · simp [hs]

theorem loadedFromFile_empty_offline (content : List JVal) (sensorId : Int)
    (u : Bool) (h : findSeries content sensorId = []) :
    onMeasurementsLoadedFromFile content sensorId false u
      = ⟨none, false, true, none⟩ := by
  simp [onMeasurementsLoadedFromFile, h]

theorem loadedFromFile_empty_online (content : List JVal) (sensorId : Int)
    (u : Bool) (h : findSeries content sensorId = []) :
    onMeasurementsLoadedFromFile content sensorId true u
      = ⟨none, true, false, none⟩ := by
  simp [onMeasurementsLoadedFromFile, h]

/--
Claim C9: the user-triggered measurements refresh is network-first — when
online it always issues the data fetch, and a successful fetch with valid
data is displayed and persisted regardless of what is cached (no cache-hit
short-circuit); only when the fetch fails (offline probe, network error,
malformed body, or no valid entry) does it fall back to the cached series
for the sensor; and the terminal unavailable dialog is shown exactly when
the network is unreachable and the cache holds nothing for the sensor.
-/
theorem c9_refresh_is_network_first (fd : FileData) (sensorId : Int)
    (internet : Bool) (reply : MeasReply) (ts : String) (u : Bool)
    (hA : sensorId ≠ -1) :
    (internet = true →
      (downloadMeasurementData fd sensorId internet reply ts u).fetchIssued = true) ∧
    (∀ vs, internet = true → reply = .ok vs → vs.any hasValidValue = true →
      (downloadMeasurementData fd sensorId internet reply ts u).displayed = some vs ∧
      (downloadMeasurementData fd sensorId internet reply ts u).savedStore
        = some (updateMeasurementsFile (loadMeasurementsFromFile fd) sensorId vs ts)) ∧
    ((internet = false ∨ reply = .err ∨ reply = .notObject ∨
        (∃ vs, reply = .ok vs ∧ vs.any hasValidValue = false)) →
      findSeries (loadMeasurementsFromFile fd) sensorId ≠ [] →
      (downloadMeasurementData fd sensorId internet reply ts u).displayed
        = some (findSeries (loadMeasurementsFromFile fd) sensorId)) ∧
    ((downloadMeasurementData fd sensorId internet reply ts u).unavailableShown = true ↔
      internet = false ∧ findSeries (loadMeasurementsFromFile fd) sensorId = []) := by
  refine ⟨?_, ?_, ?_, ?_⟩
  · intro hi
    subst hi
    simp [downloadMeasurementData, hA, markMeasFetch]
  · intro vs hi hr hv
    subst hi
    subst hr
    constructor <;>
      simp [downloadMeasurementData, hA, onMeasurementsDownloaded, hv, markMeasFetch]
  · intro hfail hne
    cases internet with
    | false =>
      simp only [downloadMeasurementData, if_neg hA, Bool.not_false, if_true]
      rw [loadedFromFile_displayed _ _ _ _ hne]
    | true =>
      rcases hfail with hf | hf | hf | ⟨vs, hvs, hv⟩
      · exact absurd hf (by simp)
      · subst hf
        simp only [downloadMeasurementData, if_neg hA, Bool.not_true, if_false,
          onMeasurementsDownloaded, markMeasFetch]
        rw [loadedFromFile_displayed _ _ _ _ hne]
        simp
      · subst hf
        simp only [downloadMeasurementData, if_neg hA, Bool.not_true, if_false,
          onMeasurementsDownloaded, markMeasFetch]
        rw [loadedFromFile_displayed _ _ _ _ hne]
        simp
      · subst hvs
        simp only [downloadMeasurementData, if_neg hA, Bool.not_true, if_false,
          onMeasurementsDownloaded, hv, markMeasFetch]
        rw [loadedFromFile_displayed _ _ _ _ hne]
        simp
  · cases internet with
    | false =>
      rcases hs : findSeries (loadMeasurementsFromFile fd) sensorId with _ | ⟨y, ys⟩
      · simp only [downloadMeasurementData, if_neg hA, Bool.not_false, if_true]
        rw [loadedFromFile_empty_offline _ _ _ hs]
        simp
      · simp only [downloadMeasurementData, if_neg hA, Bool.not_false, if_true]
        rw [loadedFromFile_displayed _ _ _ _ (by rw [hs]; exact List.cons_ne_nil _ _)]
        simp [hs]
    | true =>
      cases reply with
      | err =>
        simp only [downloadMeasurementData, if_neg hA, Bool.not_true, if_false,
          onMeasurementsDownloaded]
        rcases hs : findSeries (loadMeasurementsFromFile fd) sensorId with _ | ⟨y, ys⟩
        · rw [loadedFromFile_empty_online _ _ _ hs]
          simp [markMeasFetch]
        · rw [loadedFromFile_displayed _ _ _ _ (by rw [hs]; exact List.cons_ne_nil _ _)]
          simp [markMeasFetch]
      | notObject =>
        simp only [downloadMeasurementData, if_neg hA, Bool.not_true, if_false,
          onMeasurementsDownloaded]
        rcases hs : findSeries (loadMeasurementsFromFile fd) sensorId with _ | ⟨y, ys⟩
        · rw [loadedFromFile_empty_online _ _ _ hs]
          simp [markMeasFetch]
        · rw [loadedFromFile_displayed _ _ _ _ (by rw [hs]; exact List.cons_ne_nil _ _)]
          simp [markMeasFetch]
      | ok vs =>
        by_cases hv : vs.any hasValidValue
        · simp [downloadMeasurementData, if_neg hA, onMeasurementsDownloaded, hv,
            markMeasFetch]
        · simp only [downloadMeasurementData, if_neg hA, Bool.not_true, if_false,
            onMeasurementsDownloaded, Bool.not_eq_true] at hv ⊢
          simp only [hv, Bool.false_eq_true, if_false]
          rcases hs : findSeries (loadMeasurementsFromFile fd) sensorId with _ | ⟨y, ys⟩
          · rw [loadedFromFile_empty_online _ _ _ hs]
            simp [markMeasFetch]
          · rw [loadedFromFile_displayed _ _ _ _ (by rw [hs]; exact List.cons_ne_nil _ _)]
            simp [markMeasFetch]

/-- A stored measurements entry for sensor 1 used by the C9 witness. -/
def measStoreEntry : JVal :=
  jobj [("id", jnum 1), ("values", jarr exSeries),
    ("lastUpdated", jstr "2024-04-30T10:00:00")]

/-- Witness for C9: online with a good reply the fetched series is shown
even though sensor 1 is cached; offline the cached series is shown; offline
with an empty cache the unavailable dialog appears. -/
theorem c9_refresh_is_network_first_witness :
    (1 : Int) ≠ -1 ∧
    (downloadMeasurementData (.parsed (.jarr [measStoreEntry])) 1 true (.ok c5data)
        "2024-05-01T12:00:00" false).displayed = some c5data ∧
    (downloadMeasurementData (.parsed (.jarr [measStoreEntry])) 1 false .err
        "2024-05-01T12:00:00" false).displayed
      = some (findSeries (loadMeasurementsFromFile (.parsed (.jarr [measStoreEntry]))) 1) ∧
    ((downloadMeasurementData (.parsed (.jarr [])) 1 false .err
        "2024-05-01T12:00:00" false).unavailableShown = true ↔
      false = false ∧ findSeries (loadMeasurementsFromFile (.parsed (.jarr []))) 1 = []) := by
  have h1 := c9_refresh_is_network_first (.parsed (.jarr [measStoreEntry])) 1 true
    (.ok c5data) "2024-05-01T12:00:00" false (by decide)
  have h2 := c9_refresh_is_network_first (.parsed (.jarr [measStoreEntry])) 1 false
    .err "2024-05-01T12:00:00" false (by decide)
  have h3 := c9_refresh_is_network_first (.parsed (.jarr [])) 1 false
    .err "2024-05-01T12:00:00" false (by decide)
  refine ⟨by decide, (h1.2.1 c5data rfl rfl (by decide)).1, ?_, h3.2.2.2⟩
  exact h2.2.2.1 (Or.inl rfl) (fun h => absurd (congrArg List.length h) (by decide))

/-
Helper lemmas for the haversine distance.
-/

theorem qDegreesToRadians_zero : qDegreesToRadians 0 = 0 := by
  unfold qDegreesToRadians
  ring

theorem atan2_zero_one : atan2 0 1 = 0 := by
  unfold atan2
  rw [if_pos one_pos, zero_div, Real.arctan_zero]

/-- The haversine distance from a point to itself is exactly 0 in the
real-number model. -/
theorem haversine_self_eq_zero (lat lon : ℝ) :
    haversineDistance lat lon lat lon = 0 := by
  simp only [haversineDistance, sub_self, qDegreesToRadians_zero, zero_div,
    Real.sin_zero]
  have ha : (0 : ℝ) * 0 +
      Real.cos (qDegreesToRadians lat) * Real.cos (qDegreesToRadians lat) * 0 * 0
      = 0 := by ring
  rw [ha, Real.sqrt_zero, sub_zero, Real.sqrt_one, atan2_zero_one]
  ring

/--
Claim C7: the haversine distance of the source (Earth radius 6371 km,
degree inputs converted to radians) is symmetric in its two points, and is
exactly zero for identical points (within floating-point tolerance in the
source; exactly in the real-number model).
-/
theorem c7_haversine_symm_and_zero :
    (∀ lat1 lon1 lat2 lon2 : ℝ,
      haversineDistance lat1 lon1 lat2 lon2 = haversineDistance lat2 lon2 lat1 lon1) ∧
    (∀ lat lon : ℝ, haversineDistance lat lon lat lon = 0) := by
  constructor
  · intro lat1 lon1 lat2 lon2
    have hA : Real.sin (qDegreesToRadians (lat1 - lat2) / 2) *
          Real.sin (qDegreesToRadians (lat1 - lat2) / 2) +
        Real.cos (qDegreesToRadians lat2) * Real.cos (qDegreesToRadians lat1) *
          Real.sin (qDegreesToRadians (lon1 - lon2) / 2) *
          Real.sin (qDegreesToRadians (lon1 - lon2) / 2)
        = Real.sin (qDegreesToRadians (lat2 - lat1) / 2) *
          Real.sin (qDegreesToRadians (lat2 - lat1) / 2) +
        Real.cos (qDegreesToRadians lat1) * Real.cos (qDegreesToRadians lat2) *
          Real.sin (qDegreesToRadians (lon2 - lon1) / 2) *
          Real.sin (qDegreesToRadians (lon2 - lon1) / 2) := by
      have e1 : qDegreesToRadians (lat1 - lat2) = -(qDegreesToRadians (lat2 - lat1)) := by
        unfold qDegreesToRadians
        ring
      have e2 : qDegreesToRadians (lon1 - lon2) = -(qDegreesToRadians (lon2 - lon1)) := by
        unfold qDegreesToRadians
        ring
      rw [e1, e2, neg_div, neg_div, Real.sin_neg, Real.sin_neg]
      ring
    simp only [haversineDistance]
    rw [hA]
  · exact haversine_self_eq_zero

/-- A cached station entry with no coordinate fields at all. -/
def noCoordStation : JVal := jobj [("id", jnum 99), ("stationName", jstr "NoCoords")]

/--
Claim C8 counterexample: a station with no `gegrLat`/`gegrLon` fields is
NOT excluded by `findStationsInRadius`; its coordinates read back as the
empty string, `toDouble` turns them into 0.0, and for a search centred at
(0, 0) with radius 1 km the station is included in the result.
-/
theorem c8_counterexample :
    objValue noCoordStation.toObject "gegrLat" = none ∧
    objValue noCoordStation.toObject "gegrLon" = none ∧
    noCoordStation ∈ findStationsInRadius [noCoordStation] 0 0 1 := by
  refine ⟨rfl, rfl, ?_⟩
  have hlat : stationLat noCoordStation = 0 := by
    unfold stationLat
    have h : qstringToDouble (optToString (objValue noCoordStation.toObject "gegrLat"))
        = 0 := by decide
    rw [h, Rat.cast_zero]
  have hlon : stationLon noCoordStation = 0 := by
    unfold stationLon
    have h : qstringToDouble (optToString (objValue noCoordStation.toObject "gegrLon"))
        = 0 := by decide
    rw [h, Rat.cast_zero]
  have hd : haversineDistance 0 0 (stationLat noCoordStation)
      (stationLon noCoordStation) ≤ 1 := by
    rw [hlat, hlon, haversine_self_eq_zero]
    norm_num
  unfold findStationsInRadius
  exact List.mem_filter.mpr ⟨List.mem_cons_self _ _, decide_eq_true hd⟩

/--
Claim C8 (amended): `findStationsInRadius` keeps exactly the stations whose
haversine distance to the center is at most the radius, where a station's
coordinates are the `toDouble` parse of its coordinate strings — so a
station with missing or non-numeric coordinates is treated as located at
(0°, 0°) rather than excluded.
-/
theorem c8_radius_filter_membership :
    ∀ (stations : List JVal) (centerLat centerLon radiusKm : ℝ) (v : JVal),
      v ∈ findStationsInRadius stations centerLat centerLon radiusKm ↔
        v ∈ stations ∧
          haversineDistance centerLat centerLon (stationLat v) (stationLon v)
            ≤ radiusKm := by
  intro stations cLat cLon r v
  unfold findStationsInRadius
  rw [List.mem_filter]
  constructor
  · rintro ⟨h1, h2⟩
    exact ⟨h1, of_decide_eq_true h2⟩
  · rintro ⟨h1, h2⟩
    exact ⟨h1, decide_eq_true h2⟩

end AirQuality
